import Mathlib

/-!
Verification of the smart-pointer primitives of rust-demo-smart-pointers.

The repository implements three primitives:
* an unchecked mutable cell, Cell (src/s3_cell.rs), fully implemented;
* a dynamically borrow-checked cell, RefCell (src/s4_refcell.rs), whose
  borrow state machine is referenced by its tests but whose bodies are
  unimplemented stubs in the sources;
* a reference-counted owner, Rc (src/s5_rc.rs), whose counting machinery is
  likewise an unimplemented stub.

Implemented code is embedded directly from the sources; the missing
machinery is modelled from the specification, as marked on each definition.
-/

namespace SmartPointers

/-! ## Cell (src/s3_cell.rs)

A Cell holds one value; every operation is embedded from the implemented
Rust source.  Rust mutates the cell in place; the embedding passes the cell
state explicitly, so an operation that mutates and returns a value becomes a
function returning the pair (new cell state, returned value). -/

structure Cell (T : Type) where
  inner : T
deriving DecidableEq, Repr

/-- Cell::new (s3_cell.rs line 12): wraps the value. -/
def Cell.new {T : Type} (value : T) : Cell T :=
  ⟨value⟩

/-- Cell::get (s3_cell.rs line 20): returns a copy of the contained value. -/
def Cell.get {T : Type} (c : Cell T) : T :=
  c.inner

/-- Cell::replace (s3_cell.rs line 31): stores the argument, returns the old
contained value (mem::replace). -/
def Cell.replace {T : Type} (c : Cell T) (value : T) : Cell T × T :=
  (⟨value⟩, c.inner)

/-- Cell::set (s3_cell.rs line 41): replace, discarding the old value. -/
def Cell.set {T : Type} (c : Cell T) (value : T) : Cell T :=
  (c.replace value).1

/-- Cell::take (s3_cell.rs line 47): replaces the contents with the default
value of the type, returning the old contents. -/
def Cell.take {T : Type} [Inhabited T] (c : Cell T) : Cell T × T :=
  c.replace default

/-- Cell::into_inner (s3_cell.rs line 74): consumes the cell, returning the
contained value. -/
def Cell.into_inner {T : Type} (c : Cell T) : T :=
  c.inner

/-- A store of cells addressed by identity, used to model Cell::swap, whose
behaviour depends on whether its two arguments are the same cell
(ptr::eq).  Addresses are natural numbers; two arguments alias exactly when
their addresses are equal. -/
def CellStore (T : Type) : Type :=
  Nat → Cell T

/-- Cell::swap (s3_cell.rs line 57): if the two arguments are the same cell
(ptr::eq) it returns at once; otherwise it exchanges the contents of the two
cells (ptr::swap). -/
def CellStore.swap {T : Type} (σ : CellStore T) (a b : Nat) : CellStore T :=
  if a = b then σ
  else fun k => if k = a then σ b else if k = b then σ a else σ k

/-! ## Theorems about Cell -/

/-- Claim C7: replace(v) on a cell holding u stores v and returns u, so get
immediately after replace(v) returns v, and get immediately after set(v)
returns v. -/
theorem cell_replace_get (T : Type) (c : Cell T) (v : T) :
    (c.replace v).2 = c.get ∧
    ((c.replace v).1).get = v ∧
    (c.set v).get = v :=
  ⟨rfl, rfl, rfl⟩

/-- Claim C8: swapping two cells twice restores both cells to their original
contents, and swapping a cell with itself leaves the store unchanged. -/
theorem cell_swap_twice_and_self (T : Type) (σ : CellStore T) (a b : Nat) :
    (σ.swap a b).swap a b = σ ∧ σ.swap a a = σ := by
  constructor
  · by_cases hab : a = b
    · simp [CellStore.swap, hab]
    · funext k
      simp only [CellStore.swap, hab, if_neg]
      by_cases hka : k = a
      · simp [hka, hab, Ne.symm hab]
      · by_cases hkb : k = b
        · simp [hka, hkb, hab, Ne.symm hab]
        · simp [hka, hkb]
  · simp [CellStore.swap]

/-- Claim C9: take on a cell of a type with a default value returns the old
contents and leaves the default behind; concretely, taking from a cell built
on 5 returns 5 and a subsequent get returns 0. -/
theorem cell_take_default (T : Type) [Inhabited T] (c : Cell T) :
    (c.take).2 = c.get ∧
    ((c.take).1).get = (default : T) ∧
    ((Cell.new (5 : Int)).take).2 = 5 ∧
    (((Cell.new (5 : Int)).take).1).get = 0 :=
  ⟨rfl, rfl, rfl, rfl⟩

/-- Claim C10: new followed by into_inner is the identity, and get on a
freshly constructed cell returns the constructing value. -/
theorem cell_new_round_trip (T : Type) (v : T) :
    (Cell.new v).into_inner = v ∧ (Cell.new v).get = v :=
  ⟨rfl, rfl⟩

/-! ## RefCell borrow state machine (src/s4_refcell.rs)

The RefCell in the sources declares new, borrow and borrow_mut, but the
struct carries only PhantomData and both borrow bodies are unimplemented
stubs; the BorrowState enum its disabled tests mention is not defined
anywhere in the sources.  The state machine below is therefore modelled
from the spec. -/

/-- Modelled from the spec: the BorrowState tagged variant
(Unused, Shared(count), Exclusive); the enum is referenced by the
s4_refcell.rs tests but missing from the sources.  The spec constraint
count ≥ 1 on Shared is an invariant, proved below, not a constructor
constraint. -/
inductive BorrowState : Type
  | Unused : BorrowState
  | Shared : Nat → BorrowState
  | Exclusive : BorrowState
deriving DecidableEq, Repr

/-- Modelled from the spec: the borrow-violation error kinds. -/
inductive BorrowError : Type
  | AlreadyExclusivelyBorrowed : BorrowError
  | AlreadyBorrowed : BorrowError
deriving DecidableEq, Repr

/-- Modelled from the spec: the state transition of a shared borrow; the
body of RefCell::borrow is an unimplemented stub in the sources.
Unused goes to Shared(1), Shared(n) goes to Shared(n+1), and from
Exclusive the call fails with AlreadyExclusivelyBorrowed. -/
def BorrowState.borrow : BorrowState → Except BorrowError BorrowState
  | .Unused => .ok (.Shared 1)
  | .Shared n => .ok (.Shared (n + 1))
  | .Exclusive => .error .AlreadyExclusivelyBorrowed

/-- Modelled from the spec: the state transition of an exclusive borrow; the
body of RefCell::borrow_mut is an unimplemented stub in the sources.
Unused goes to Exclusive, and from Shared(n) or Exclusive the call fails
with AlreadyBorrowed. -/
def BorrowState.borrow_mut : BorrowState → Except BorrowError BorrowState
  | .Unused => .ok .Exclusive
  | .Shared _ => .error .AlreadyBorrowed
  | .Exclusive => .error .AlreadyBorrowed

/-- Modelled from the spec: releasing one shared guard moves Shared(n) to
Shared(n-1), or to Unused when the count reaches zero; any other state is
left unchanged (no shared guard can be live there). -/
def BorrowState.release_shared : BorrowState → BorrowState
  | .Shared (n + 1) => if n = 0 then .Unused else .Shared n
  | s => s

/-- Modelled from the spec: releasing the exclusive guard moves Exclusive
back to Unused; any other state is left unchanged. -/
def BorrowState.release_exclusive : BorrowState → BorrowState
  | .Exclusive => .Unused
  | s => s

/-- The events a client can fire at a borrow-checked cell: the two borrow
attempts and the two guard releases. -/
inductive BorrowOp : Type
  | borrow : BorrowOp
  | borrow_mut : BorrowOp
  | release_shared : BorrowOp
  | release_exclusive : BorrowOp
deriving DecidableEq, Repr

/-- One event applied to the state machine; a failed borrow attempt leaves
the state unchanged (the recoverable error is surfaced to the caller and no
guard is produced). -/
def BorrowState.step (s : BorrowState) : BorrowOp → BorrowState
  | .borrow =>
    match s.borrow with
    | .ok t => t
    | .error _ => s
  | .borrow_mut =>
    match s.borrow_mut with
    | .ok t => t
    | .error _ => s
  | .release_shared => s.release_shared
  | .release_exclusive => s.release_exclusive

/-- Runs a sequence of events from a starting state. -/
def BorrowState.run (s : BorrowState) : List BorrowOp → BorrowState
  | [] => s
  | op :: ops => (s.step op).run ops

/-- The borrow-state invariant: a Shared tag always carries a count of at
least one. -/
def BorrowState.legal : BorrowState → Bool
  | .Shared n => decide (1 ≤ n)
  | _ => true

/-- The public interface RefCell declares in src/s4_refcell.rs: the three
method names of its impl blocks (lines 15, 28 and 41). -/
def RefCell.interface : List String :=
  ["new", "borrow", "borrow_mut"]

/-! ## Theorems about the borrow state machine -/

theorem BorrowState.legal_step (s : BorrowState) (op : BorrowOp)
    (h : s.legal = true) : (s.step op).legal = true := by
  cases op with
  | borrow =>
    cases s <;>
      simp [BorrowState.step, BorrowState.borrow, BorrowState.legal]
  | borrow_mut =>
    cases s <;>
      simp_all [BorrowState.step, BorrowState.borrow_mut, BorrowState.legal]
  | release_shared =>
    cases s with
    | Unused => exact h
    | Exclusive => exact h
    | Shared n =>
      match n with
      | 0 => exact h
      | n + 1 =>
        show (BorrowState.release_shared (.Shared (n + 1))).legal = true
        simp only [BorrowState.release_shared]
        split
        next => rfl
        next h0 =>
          simp only [BorrowState.legal, decide_eq_true_eq]
          omega
  | release_exclusive =>
    cases s <;>
      simp_all [BorrowState.step, BorrowState.release_exclusive,
        BorrowState.legal]

theorem BorrowState.legal_run (ops : List BorrowOp) (s : BorrowState)
    (h : s.legal = true) : (s.run ops).legal = true := by
  induction ops generalizing s with
  | nil => exact h
  | cons op ops ih => exact ih (s.step op) (s.legal_step op h)

/-- Claim C1: whenever the state is Shared(n) with n positive, or Exclusive,
borrow_mut fails with AlreadyBorrowed; in particular a first borrow_mut from
Unused succeeds with the Exclusive state, and a second one before release
fails with AlreadyBorrowed. -/
theorem borrow_mut_fails_while_borrowed (s : BorrowState)
    (h : (∃ n, 0 < n ∧ s = .Shared n) ∨ s = .Exclusive) :
    s.borrow_mut = .error .AlreadyBorrowed ∧
    BorrowState.Unused.borrow_mut = .ok .Exclusive ∧
    BorrowState.Exclusive.borrow_mut = .error .AlreadyBorrowed := by
  refine ⟨?_, rfl, rfl⟩
  rcases h with ⟨n, _, rfl⟩ | rfl <;> rfl

/-- Witness for C1: the concrete double borrow_mut scenario, at the state an
acquired exclusive guard leaves behind. -/
theorem borrow_mut_fails_while_borrowed_witness :
    BorrowState.Exclusive.borrow_mut = .error .AlreadyBorrowed ∧
    BorrowState.Unused.borrow_mut = .ok .Exclusive ∧
    BorrowState.Exclusive.borrow_mut = .error .AlreadyBorrowed :=
  borrow_mut_fails_while_borrowed .Exclusive (Or.inr rfl)

/-- Claim C2: after any sequence of borrow, borrow_mut and guard-release
events from the initial Unused state, the state is Unused, Shared(n) with
n ≥ 1, or Exclusive — never a mix of shared and exclusive access — and each
single event preserves the legality invariant. -/
theorem borrow_state_invariant (ops : List BorrowOp) (s : BorrowState)
    (op : BorrowOp) (h : s.legal = true) :
    ((s.step op).legal = true) ∧
    (BorrowState.run .Unused ops = .Unused ∨
      (∃ n, 1 ≤ n ∧ BorrowState.run .Unused ops = .Shared n) ∨
      BorrowState.run .Unused ops = .Exclusive) := by
  refine ⟨s.legal_step op h, ?_⟩
  have hr : (BorrowState.run .Unused ops).legal = true :=
    BorrowState.legal_run ops .Unused rfl
  cases hrun : BorrowState.run .Unused ops with
  | Unused => exact Or.inl rfl
  | Shared n =>
    rw [hrun] at hr
    simp only [BorrowState.legal, decide_eq_true_eq] at hr
    exact Or.inr (Or.inl ⟨n, hr, rfl⟩)
  | Exclusive => exact Or.inr (Or.inr rfl)

/-- Witness for C2: one borrow from the initial state lands in the legal
Shared(1) state, and the trichotomy holds for the two-borrow run. -/
theorem borrow_state_invariant_witness :
    ((BorrowState.Unused.step .borrow).legal = true) ∧
    (BorrowState.run .Unused [.borrow, .borrow] = .Unused ∨
      (∃ n, 1 ≤ n ∧
        BorrowState.run .Unused [.borrow, .borrow] = .Shared n) ∨
      BorrowState.run .Unused [.borrow, .borrow] = .Exclusive) :=
  borrow_state_invariant [.borrow, .borrow] .Unused .borrow rfl

/-- Claim C5, counterexample: the RefCell declared in src/s4_refcell.rs does
not expose try_borrow (nor try_borrow_mut); its interface is new, borrow and
borrow_mut only, so the claimed four-method surface is absent from the
code. -/
theorem refcell_no_try_interface :
    ("try_borrow" ∈ RefCell.interface) = False := by
  simp [RefCell.interface]

/-- Claim C5: the entry points the source file actually declares — new,
borrow and borrow_mut are present, and neither try_borrow nor
try_borrow_mut is. -/
theorem refcell_interface_members :
    "new" ∈ RefCell.interface ∧
    "borrow" ∈ RefCell.interface ∧
    "borrow_mut" ∈ RefCell.interface ∧
    "try_borrow" ∉ RefCell.interface ∧
    "try_borrow_mut" ∉ RefCell.interface := by
  refine ⟨?_, ?_, ?_, ?_, ?_⟩ <;> simp [RefCell.interface]

/-! ## Rc and Weak (src/s5_rc.rs)

The Rc in the sources carries only PhantomData, its new and strong_count
bodies are unimplemented stubs, and Clone, Deref, Drop and the weak handle
are left as comments, so the counting machinery below is modelled from the
spec.  An AllocationBlock records the shared value together with the strong
and weak counts; the value field becomes none when the value is destroyed
(at strong = 0). -/

/-- Modelled from the spec: the heap record AllocationBlock with the value
(present until the strong count reaches zero) and the strong and weak
counters. -/
structure AllocationBlock (T : Type) where
  value : Option T
  strong : Nat
  weak : Nat
deriving DecidableEq, Repr

/-- Whether the contained value is still alive (not yet destroyed). -/
def AllocationBlock.live {T : Type} (b : AllocationBlock T) : Bool :=
  b.value.isSome

/-- Modelled from the spec: Rc::new allocates a block with the value present,
strong = 1 and weak = 0. -/
def Rc.new {T : Type} (v : T) : AllocationBlock T :=
  ⟨some v, 1, 0⟩

/-- Modelled from the spec: cloning a strong handle increments the strong
count of the shared block. -/
def Rc.clone {T : Type} (b : AllocationBlock T) : AllocationBlock T :=
  { b with strong := b.strong + 1 }

/-- Modelled from the spec: Rc::strong_count reads the strong counter. -/
def Rc.strong_count {T : Type} (b : AllocationBlock T) : Nat :=
  b.strong

/-- Modelled from the spec: Rc::weak_count reads the weak counter. -/
def Rc.weak_count {T : Type} (b : AllocationBlock T) : Nat :=
  b.weak

/-- Modelled from the spec: dropping a strong handle decrements strong, and
when strong reaches zero the contained value is destroyed in place. -/
def Rc.drop {T : Type} (b : AllocationBlock T) : AllocationBlock T :=
  let s := b.strong - 1
  if s = 0 then ⟨none, s, b.weak⟩ else ⟨b.value, s, b.weak⟩

/-- Modelled from the spec: downgrading a strong handle increments weak and
hands out a weak handle to the same block. -/
def Rc.downgrade {T : Type} (b : AllocationBlock T) : AllocationBlock T :=
  { b with weak := b.weak + 1 }

/-- Modelled from the spec: Weak::upgrade returns a new strong handle
(incrementing strong) when strong is positive, and none when the value has
already been destroyed. -/
def Weak.upgrade {T : Type} (b : AllocationBlock T) :
    Option (AllocationBlock T) :=
  if 0 < b.strong then some (Rc.clone b) else none

/-- n successive clones of handles to the same block. -/
def Rc.cloneN {T : Type} : Nat → AllocationBlock T → AllocationBlock T
  | 0, b => b
  | n + 1, b => Rc.clone (Rc.cloneN n b)

/-- n successive drops of handles to the same block. -/
def Rc.dropN {T : Type} : Nat → AllocationBlock T → AllocationBlock T
  | 0, b => b
  | n + 1, b => Rc.dropN n (Rc.drop b)

/-! ## Theorems about Rc and Weak -/

theorem Rc.cloneN_strong {T : Type} (n : Nat) (b : AllocationBlock T) :
    (Rc.cloneN n b).strong = b.strong + n := by
  induction n with
  | zero => rfl
  | succ n ih => simp [Rc.cloneN, Rc.clone, ih]; omega

theorem Rc.drop_strong {T : Type} (b : AllocationBlock T) :
    (Rc.drop b).strong = b.strong - 1 := by
  simp only [Rc.drop]
  split <;> rfl

theorem Rc.dropN_strong {T : Type} (n : Nat) (b : AllocationBlock T) :
    (Rc.dropN n b).strong = b.strong - n := by
  induction n generalizing b with
  | zero => rfl
  | succ n ih =>
    simp only [Rc.dropN, ih, Rc.drop_strong]
    omega

/-- Claim C3: a fresh block has strong = 1 and weak = 0; after n clones the
strong count is n + 1; and after dropping all but one handle (n drops) the
strong count is back to 1. -/
theorem rc_new_clone_drop_counts (T : Type) (v : T) (n : Nat) :
    Rc.strong_count (Rc.new v) = 1 ∧
    Rc.weak_count (Rc.new v) = 0 ∧
    Rc.strong_count (Rc.cloneN n (Rc.new v)) = n + 1 ∧
    Rc.strong_count (Rc.dropN n (Rc.cloneN n (Rc.new v))) = 1 := by
  refine ⟨rfl, rfl, ?_, ?_⟩
  · simp [Rc.strong_count, Rc.cloneN_strong, Rc.new]
    omega
  · simp [Rc.strong_count, Rc.dropN_strong, Rc.cloneN_strong, Rc.new]

/-- Claim C4: upgrade succeeds, returning a handle and incrementing strong,
exactly when strong is positive; it returns none exactly when strong is
zero; and once the last strong handle is dropped (strong was 1), upgrade on
the block returns none. -/
theorem weak_upgrade_iff_strong_pos (T : Type) (b : AllocationBlock T) :
    (0 < b.strong → Weak.upgrade b = some (Rc.clone b)) ∧
    (Rc.clone b).strong = b.strong + 1 ∧
    (b.strong = 0 → Weak.upgrade b = none) ∧
    (b.strong = 1 → Weak.upgrade (Rc.drop b) = none) := by
  refine ⟨?_, rfl, ?_, ?_⟩
  · intro h
    simp [Weak.upgrade, h]
  · intro h
    simp [Weak.upgrade, h]
  · intro h
    simp [Weak.upgrade, Rc.drop_strong, h]

/-- Witness for C4: the spec's concrete scenario on a block built from the
value 1 — upgrade while alive yields the incremented block, and after the
only strong handle drops, upgrade yields none. -/
theorem weak_upgrade_iff_strong_pos_witness :
    Weak.upgrade (Rc.new (1 : Int)) = some (Rc.clone (Rc.new (1 : Int))) ∧
    Weak.upgrade (Rc.drop (Rc.new (1 : Int))) = none :=
  ⟨(weak_upgrade_iff_strong_pos Int (Rc.new 1)).1 (by decide),
   (weak_upgrade_iff_strong_pos Int (Rc.new 1)).2.2.2 (by decide)⟩

/-! ## Two-node ownership cycles

Modelled from the spec: two heap nodes A and B, each a reference-counted
block, where the value stored in each node holds at most one handle (strong
or weak) to the other node.  Destroying a node's value (at strong = 0)
releases its outgoing handle, which may cascade to the other node; the
destruction cascade over this two-node graph has depth at most three, so a
fuel of three makes the fueled recursion exact. -/

inductive EdgeKind : Type
  | strong : EdgeKind
  | weak : EdgeKind
deriving DecidableEq, Repr

inductive NodeId : Type
  | A : NodeId
  | B : NodeId
deriving DecidableEq, Repr

def NodeId.other : NodeId → NodeId
  | .A => .B
  | .B => .A

/-- A two-node shared-ownership graph: the two blocks and, for each node,
the kind of handle its value holds to the other node (none once released or
absent). -/
structure CycleHeap : Type where
  a : AllocationBlock Unit
  b : AllocationBlock Unit
  edgeAB : Option EdgeKind
  edgeBA : Option EdgeKind
deriving DecidableEq, Repr

def CycleHeap.node (h : CycleHeap) : NodeId → AllocationBlock Unit
  | .A => h.a
  | .B => h.b

def CycleHeap.setNode (h : CycleHeap) : NodeId → AllocationBlock Unit → CycleHeap
  | .A, n => { h with a := n }
  | .B, n => { h with b := n }

def CycleHeap.edgeOut (h : CycleHeap) : NodeId → Option EdgeKind
  | .A => h.edgeAB
  | .B => h.edgeBA

def CycleHeap.clearEdge (h : CycleHeap) : NodeId → CycleHeap
  | .A => { h with edgeAB := none }
  | .B => { h with edgeBA := none }

/-- Dropping a weak handle to node i decrements its weak count; this never
destroys the value. -/
def CycleHeap.dropWeakRef (h : CycleHeap) (i : NodeId) : CycleHeap :=
  h.setNode i { h.node i with weak := (h.node i).weak - 1 }

/-- Dropping a strong handle to node i: the strong count is decremented,
and if it reaches zero while the value was still alive, the value is
destroyed in place, releasing the handle it held to the other node (the
destruction cascade, bounded by the fuel). -/
def CycleHeap.dropStrongRef : Nat → CycleHeap → NodeId → CycleHeap
  | 0, h, _ => h
  | fuel + 1, h, i =>
    let n := h.node i
    let n1 := { n with strong := n.strong - 1 }
    let h1 := h.setNode i n1
    if n1.strong = 0 && n.live then
      let h2 := h1.setNode i { n1 with value := none }
      match h2.edgeOut i with
      | none => h2
      | some .strong =>
        CycleHeap.dropStrongRef fuel (h2.clearEdge i) i.other
      | some .weak => (h2.clearEdge i).dropWeakRef i.other
    else h1

/-- The all-strong cycle of the spec scenario: one external strong handle to
each of A and B, A's value holding a strong handle to B and B's value a
strong handle to A, so both strong counts start at 2. -/
def strongCycleHeap : CycleHeap :=
  ⟨⟨some (), 2, 0⟩, ⟨some (), 2, 0⟩, some .strong, some .strong⟩

/-- The mitigated cycle of the spec scenario: the back edge from B to A is
weak, so A's counts start at strong 1 / weak 1 while B's strong count
starts at 2. -/
def weakCycleHeap : CycleHeap :=
  ⟨⟨some (), 1, 1⟩, ⟨some (), 2, 0⟩, some .strong, some .weak⟩

/-- The strong cycle after the external handle to A goes out of scope. -/
def strongCycleAfterA : CycleHeap :=
  CycleHeap.dropStrongRef 3 strongCycleHeap .A

/-- The strong cycle after both external handles go out of scope. -/
def strongCycleFinal : CycleHeap :=
  CycleHeap.dropStrongRef 3 strongCycleAfterA .B

/-- The mitigated cycle after the external handle to A goes out of scope. -/
def weakCycleAfterA : CycleHeap :=
  CycleHeap.dropStrongRef 3 weakCycleHeap .A

/-- The mitigated cycle after both external handles go out of scope. -/
def weakCycleFinal : CycleHeap :=
  CycleHeap.dropStrongRef 3 weakCycleAfterA .B

/-- Claim C6: when both external handles of the all-strong two-node cycle go
out of scope, both strong counts stay positive at every step and end at 1
(the values leak); with the B-to-A leg weak instead, both strong counts
reach 0 and upgrading the weak leg afterwards returns none. -/
theorem cycle_strong_leaks_weak_collapses :
    0 < Rc.strong_count (strongCycleAfterA.node .A) ∧
    0 < Rc.strong_count (strongCycleAfterA.node .B) ∧
    Rc.strong_count (strongCycleFinal.node .A) = 1 ∧
    Rc.strong_count (strongCycleFinal.node .B) = 1 ∧
    Rc.strong_count (weakCycleFinal.node .A) = 0 ∧
    Rc.strong_count (weakCycleFinal.node .B) = 0 ∧
    Weak.upgrade (weakCycleFinal.node .A) = none := by
  decide

end SmartPointers
